import Mathlib

/-!
Verification of the DTN bundle/message protocol and the broker node of this
repository.  The definitions below are a shallow embedding of
`rec/dtn/messages.py` and `rec/dtn/broker.py`.

Modelling conventions:
* msgpack values are modelled by the inductive `MPVal`; the byte string
  produced by `msgpack.packb` is modelled abstractly as `Bytes.packed v`
  (the encoding is injective on packable values, so the value tree itself
  stands for its encoding).  `packb` fails -- as the real library does --
  when an integer falls outside the 64-bit range the wire format supports
  (the source itself records this limit as `MSGPACK_MAXINT`).
* Python dictionaries are modelled as ordered association lists
  (`List (String × MPVal)`), with insertion-order-preserving update.
* Python exceptions become `Except Err` results; field access on a decoded
  map is typed (a wire field of the wrong msgpack kind is a `typeError`),
  which matches every code path exercised by serialization round-trips.
* `rec/dtn/eid.py` is not among the sources; per the spec an `EID` is an
  immutable textual address that is falsy exactly when it has no node
  component, and compares by its text, so it is modelled as a `String`
  that is falsy exactly when empty.
-/

/-- Modelled from the spec: the endpoint identifier of `rec/dtn/eid.py`,
which is not in the sources.  The spec describes an EID as an immutable
textual address whose truthiness is non-emptiness of its node component and
whose equality is textual, so an EID is modelled as its text, falsy iff
empty. -/
abbrev EID := String

/-- The `named_data` field of a bundle: a single name or a list of names. -/
inductive NamedData : Type where
  | str : String → NamedData
  | list : List String → NamedData
deriving DecidableEq

mutual
/-- A decoded msgpack value (nested maps/lists/bytes/ints/strings/bools). -/
inductive MPVal : Type where
  | nil : MPVal
  | int : Int → MPVal
  | str : String → MPVal
  | bool : Bool → MPVal
  | bytes : Bytes → MPVal
  | list : List MPVal → MPVal
  | map : List (String × MPVal) → MPVal

/-- A byte string: either raw data bytes, or the msgpack encoding of a
value (`packb` output, kept abstract as the value it encodes). -/
inductive Bytes : Type where
  | raw : List Nat → Bytes
  | packed : MPVal → Bytes
end

/-- Errors raised by the embedded code, mirroring the Python exception
taxonomy: `InvalidMessageError`, `InvalidBundleError`, `KeyError`,
`TypeError` and msgpack's integer-overflow error. -/
inductive Err : Type where
  | invalidMessage : String → Err
  | invalidBundle : String → Err
  | keyError : Err
  | typeError : Err
  | overflowError : Err

/-- Python truthiness of a msgpack-representable value. -/
def MPVal.truthy : MPVal → Bool
  | .nil => false
  | .int i => decide (i ≠ 0)
  | .str s => decide (s ≠ "")
  | .bool b => b
  | .bytes (.raw l) => decide (l ≠ [])
  | .bytes (.packed _) => true
  | .list l => !l.isEmpty
  | .map m => !m.isEmpty

/-- Dictionary lookup (`d[k]` read side, string keys). -/
def pyLookup : List (String × MPVal) → String → Option MPVal
  | [], _ => none
  | p :: rest, k => if p.1 = k then some p.2 else pyLookup rest k

/-- Dictionary update `d[k] = v`: overwrite in place if the key exists,
append otherwise (Python dicts preserve insertion order). -/
def pyDictSet : List (String × MPVal) → String → MPVal → List (String × MPVal)
  | [], k, v => [(k, v)]
  | p :: rest, k, v => if p.1 = k then (k, v) :: rest else p :: pyDictSet rest k v

/-- Was the Python call exception-free? -/
def exceptOk {α : Type} : Except Err α → Bool
  | .ok _ => true
  | .error _ => false

namespace NodeType

/-- `NodeType.BROKER = 1` (IntEnum value). -/
def BROKER : Int := 1

/-- `NodeType.EXECUTOR = 2`. -/
def EXECUTOR : Int := 2

/-- `NodeType.DATASTORE = 3`. -/
def DATASTORE : Int := 3

/-- `NodeType.CLIENT = 4`. -/
def CLIENT : Int := 4

end NodeType

namespace MessageType

/-- `MessageType.REPLY = 1`. -/
def REPLY : Int := 1

/-- `MessageType.REGISTER = 2`. -/
def REGISTER : Int := 2

/-- `MessageType.FETCH = 3`. -/
def FETCH : Int := 3

/-- `MessageType.FETCH_REPLY = 4`. -/
def FETCH_REPLY : Int := 4

/-- `MessageType.CREATE = 5`. -/
def CREATE : Int := 5

end MessageType

namespace BundleType

/-- `BundleType.BROKER_ANNOUNCE = 1`. -/
def BROKER_ANNOUNCE : Int := 1

/-- `BundleType.BROKER_REQUEST = 2`. -/
def BROKER_REQUEST : Int := 2

/-- `BundleType.BROKER_ACK = 3`. -/
def BROKER_ACK : Int := 3

/-- `BundleType.JOB_SUBMIT = 11`. -/
def JOB_SUBMIT : Int := 11

/-- `BundleType.JOB_RESULT = 12`. -/
def JOB_RESULT : Int := 12

/-- `BundleType.JOB_QUERY = 13`. -/
def JOB_QUERY : Int := 13

/-- `BundleType.JOB_LIST = 14`. -/
def JOB_LIST : Int := 14

/-- `BundleType.NDATA_PUT = 21`. -/
def NDATA_PUT : Int := 21

/-- `BundleType.NDATA_GET = 22`. -/
def NDATA_GET : Int := 22

/-- `BundleType.NDATA_DEL = 23`. -/
def NDATA_DEL : Int := 23

end BundleType

/-- The record `BundleData` (dataclass fields and defaults as declared).
Enum-typed fields are Python ints at run time (IntEnum), hence `Int`. -/
structure BundleData : Type where
  type : Int
  source : EID
  destination : EID
  payload : Bytes := .raw []
  success : Bool := true
  error : String := ""
  node_type : Int := 0
  submitter : Option EID := none
  named_data : Option NamedData := none

/-- Truthiness of an optional EID field (`None` and the empty EID are falsy). -/
def optEIDTruthy : Option EID → Bool
  | none => false
  | some e => decide (e ≠ "")

/-- Truthiness of the `named_data` field (`None`, `""` and `[]` are falsy). -/
def ndTruthy : Option NamedData → Bool
  | none => false
  | some (.str s) => decide (s ≠ "")
  | some (.list l) => decide (l ≠ [])

/-- `BundleData.__post_init__`: the construction-time validity checks, in
source order; a violation raises `InvalidBundleError`. -/
def BundleData.postInit (b : BundleData) : Except Err Unit :=
  if b.source = "" then
    .error (.invalidBundle "Bundles must be sent by someone")
  else if b.destination = "" then
    .error (.invalidBundle "Bundles must be addressed to someone")
  else if b.success = false ∧ b.error = "" then
    .error (.invalidBundle "If operation was unsuccessful, there should be an error")
  else if b.success = true ∧ b.error ≠ "" then
    .error (.invalidBundle "If operation was successful, there should be no error")
  else if (BundleType.BROKER_ANNOUNCE ≤ b.type ∧ b.type ≤ BundleType.BROKER_ACK) ∧
      (b.node_type < NodeType.BROKER ∨ b.node_type > NodeType.CLIENT) then
    .error (.invalidBundle "Invalid node type")
  else if (b.type = BundleType.JOB_QUERY ∨ b.type = BundleType.JOB_LIST) ∧
      optEIDTruthy b.submitter = false then
    .error (.invalidBundle "Job query/list bundles must have a submitter set")
  else if (BundleType.NDATA_PUT ≤ b.type ∧ b.type ≤ BundleType.NDATA_DEL) ∧
      ndTruthy b.named_data = false then
    .error (.invalidBundle "Named data bundles need to have a data name set")
  else
    .ok ()

/-- A `BundleData` value is valid iff its `__post_init__` raises nothing,
i.e. iff the Python constructor can produce it. -/
def BundleData.valid (b : BundleData) : Bool :=
  exceptOk b.postInit

/-- Constructing a `BundleData`: run the record through `__post_init__`. -/
def BundleData.make (b : BundleData) : Except Err BundleData :=
  match b.postInit with
  | .ok _ => .ok b
  | .error e => .error e

/-- The msgpack value of an optional EID field (`None` packs as nil). -/
def optEIDVal : Option EID → MPVal
  | none => .nil
  | some e => .str e

/-- The msgpack value of the `named_data` field. -/
def ndVal : Option NamedData → MPVal
  | none => .nil
  | some (.str s) => .str s
  | some (.list l) => .list (l.map MPVal.str)

/-- `self.__dict__.items()` of a `BundleData`: all nine fields, in
declaration order, as msgpack-representable values. -/
def BundleData.pyFields (b : BundleData) : List (String × MPVal) :=
  [("type", .int b.type),
   ("source", .str b.source),
   ("destination", .str b.destination),
   ("payload", .bytes b.payload),
   ("success", .bool b.success),
   ("error", .str b.error),
   ("node_type", .int b.node_type),
   ("submitter", optEIDVal b.submitter),
   ("named_data", ndVal b.named_data)]

/-- `BundleData.dictify`: keep only truthy fields, then force the
`success` key to be present (`data["success"] = self.success`). -/
def BundleData.dictify (b : BundleData) : List (String × MPVal) :=
  pyDictSet (b.pyFields.filter fun p => p.2.truthy) "success" (.bool b.success)

/-- `BundleData.dictify` as a single msgpack value (used when nested inside
a message). -/
def BundleData.dictifyVal (b : BundleData) : MPVal :=
  .map b.dictify

/-- The field names accepted by `BundleData(**data)`. -/
def bundleFieldNames : List String :=
  ["type", "source", "destination", "payload", "success", "error",
   "node_type", "submitter", "named_data"]

/-- Read a required string field, `KeyError` when absent (models
`EID(data[k])` in `BundleData.from_dict`). -/
def getReqStr (d : List (String × MPVal)) (k : String) : Except Err String :=
  match pyLookup d k with
  | some (.str s) => .ok s
  | some _ => .error .typeError
  | none => .error .keyError

/-- Read an optional string field (`None` result when absent). -/
def getOptStr (d : List (String × MPVal)) (k : String) : Except Err (Option String) :=
  match pyLookup d k with
  | some (.str s) => .ok (some s)
  | some _ => .error .typeError
  | none => .ok none

/-- Read a required int argument of a dataclass constructor; a missing
required argument is a `TypeError` in Python. -/
def getArgInt (d : List (String × MPVal)) (k : String) : Except Err Int :=
  match pyLookup d k with
  | some (.int i) => .ok i
  | some _ => .error .typeError
  | none => .error .typeError

/-- Read a required bool argument of a dataclass constructor. -/
def getArgBool (d : List (String × MPVal)) (k : String) : Except Err Bool :=
  match pyLookup d k with
  | some (.bool b) => .ok b
  | some _ => .error .typeError
  | none => .error .typeError

/-- Read a required string argument of a dataclass constructor. -/
def getArgStr (d : List (String × MPVal)) (k : String) : Except Err String :=
  match pyLookup d k with
  | some (.str s) => .ok s
  | some _ => .error .typeError
  | none => .error .typeError

/-- Read an optional string field with a default. -/
def getOptStrD (d : List (String × MPVal)) (k : String) (dflt : String) :
    Except Err String :=
  match pyLookup d k with
  | some (.str s) => .ok s
  | some _ => .error .typeError
  | none => .ok dflt

/-- Read an optional int field with a default. -/
def getOptIntD (d : List (String × MPVal)) (k : String) (dflt : Int) :
    Except Err Int :=
  match pyLookup d k with
  | some (.int i) => .ok i
  | some _ => .error .typeError
  | none => .ok dflt

/-- Read an optional bool field with a default. -/
def getOptBoolD (d : List (String × MPVal)) (k : String) (dflt : Bool) :
    Except Err Bool :=
  match pyLookup d k with
  | some (.bool b) => .ok b
  | some _ => .error .typeError
  | none => .ok dflt

/-- Read an optional bytes field with a default. -/
def getOptBytesD (d : List (String × MPVal)) (k : String) (dflt : Bytes) :
    Except Err Bytes :=
  match pyLookup d k with
  | some (.bytes bs) => .ok bs
  | some _ => .error .typeError
  | none => .ok dflt

/-- Extract a list of strings from a msgpack list. -/
def strList : List MPVal → Except Err (List String)
  | [] => .ok []
  | .str s :: rest => Except.map (fun ss => s :: ss) (strList rest)
  | _ :: _ => .error .typeError

/-- Read the optional `named_data` field: a string or a list of strings. -/
def getOptND (d : List (String × MPVal)) : Except Err (Option NamedData) :=
  match pyLookup d "named_data" with
  | none => .ok none
  | some (.str s) => .ok (some (.str s))
  | some (.list l) => Except.map (fun ss => some (NamedData.list ss)) (strList l)
  | some _ => .error .typeError

/-- `BundleData.from_dict`: wrap `source`/`destination`/`submitter` as EIDs
(`KeyError` when the required addresses are absent), then `cls(**data)` --
which rejects unknown keys, requires `type`, fills defaults for the rest and
runs `__post_init__`. -/
def BundleData.from_dict (d : List (String × MPVal)) : Except Err BundleData :=
  Except.bind (getReqStr d "source") fun source =>
  Except.bind (getReqStr d "destination") fun destination =>
  Except.bind (getOptStr d "submitter") fun submitter =>
  if ¬ (d.all fun p => decide (p.1 ∈ bundleFieldNames)) then .error .typeError else
  Except.bind (getArgInt d "type") fun ty =>
  Except.bind (getOptBytesD d "payload" (.raw [])) fun payload =>
  Except.bind (getOptBoolD d "success" true) fun success =>
  Except.bind (getOptStrD d "error" "") fun error =>
  Except.bind (getOptIntD d "node_type" 0) fun node_type =>
  Except.bind (getOptND d) fun named_data =>
  BundleData.make
    { type := ty, source := source, destination := destination,
      payload := payload, success := success, error := error,
      node_type := node_type, submitter := submitter, named_data := named_data }

/-- The local-agent `Message` variants (`Reply`, `Register`, `Fetch`,
`FetchReply`, `BundleCreate`), each carrying its `type` tag field as the
dataclasses do. -/
inductive Message : Type where
  | reply : Int → Bool → String → Message
  | register : Int → EID → Message
  | fetch : Int → EID → Int → Message
  | fetchReply : Int → Bool → String → List BundleData → Message
  | bundleCreate : Int → BundleData → Message

/-- The `__post_init__` of each message variant.  Note that `FetchReply`
overrides `Reply.__post_init__` and checks only its tag, and that `Fetch`
does not validate `node_type`. -/
def Message.postInit : Message → Except Err Unit
  | .reply t s e =>
    if t ≠ MessageType.REPLY then
      .error (.invalidMessage "Message has wrong MessageType")
    else if s = false ∧ e = "" then
      .error (.invalidMessage "If operation was unsuccessful, there should be an error")
    else if s = true ∧ e ≠ "" then
      .error (.invalidMessage "If operation was successful, there should be no error")
    else .ok ()
  | .register t eid =>
    if t ≠ MessageType.REGISTER then
      .error (.invalidMessage "Message has wrong MessageType")
    else if eid = "" then
      .error (.invalidMessage "EndpointID must not be dtn:none")
    else .ok ()
  | .fetch t eid _ =>
    if t ≠ MessageType.FETCH then
      .error (.invalidMessage "Message has wrong MessageType")
    else if eid = "" then
      .error (.invalidMessage "EndpointID must not be dtn:none")
    else .ok ()
  | .fetchReply t _ _ _ =>
    if t ≠ MessageType.FETCH_REPLY then
      .error (.invalidMessage "Message has wrong MessageType")
    else .ok ()
  | .bundleCreate t _ =>
    if t ≠ MessageType.CREATE then
      .error (.invalidMessage "Message has wrong MessageType")
    else .ok ()

/-- A message value is one the Python constructors can produce: its own
`__post_init__` passes and every nested `BundleData` instance is itself
a constructible bundle. -/
def Message.valid : Message → Bool
  | .fetchReply t s e bs =>
    exceptOk (Message.postInit (.fetchReply t s e bs)) && bs.all BundleData.valid
  | .bundleCreate t b =>
    exceptOk (Message.postInit (.bundleCreate t b)) && b.valid
  | m => exceptOk m.postInit

/-- Constructing a message variant: run `__post_init__`. -/
def Message.make (m : Message) : Except Err Message :=
  match m.postInit with
  | .ok _ => .ok m
  | .error e => .error e

/-- `Message.dictify` of each variant: the merged `__dict__` maps, in field
declaration order; nested bundles are dictified recursively. -/
def Message.dictify : Message → MPVal
  | .reply t s e =>
    .map [("type", .int t), ("success", .bool s), ("error", .str e)]
  | .register t eid =>
    .map [("type", .int t), ("endpoint_id", .str eid)]
  | .fetch t eid nt =>
    .map [("type", .int t), ("endpoint_id", .str eid), ("node_type", .int nt)]
  | .fetchReply t s e bs =>
    .map [("type", .int t), ("success", .bool s), ("error", .str e),
          ("bundles", .list (bs.map BundleData.dictifyVal))]
  | .bundleCreate t b =>
    .map [("type", .int t), ("bundle", b.dictifyVal)]

/-- `Reply.from_dict`: `cls(**data)` with the three required fields. -/
def Reply.from_dict (d : List (String × MPVal)) : Except Err Message :=
  if ¬ (d.all fun p => decide (p.1 ∈ ["type", "success", "error"])) then
    .error .typeError
  else
  Except.bind (getArgInt d "type") fun t =>
  Except.bind (getArgBool d "success") fun s =>
  Except.bind (getArgStr d "error") fun e =>
  Message.make (.reply t s e)

/-- `Register.from_dict`. -/
def Register.from_dict (d : List (String × MPVal)) : Except Err Message :=
  if ¬ (d.all fun p => decide (p.1 ∈ ["type", "endpoint_id"])) then
    .error .typeError
  else
  Except.bind (getArgInt d "type") fun t =>
  Except.bind (getArgStr d "endpoint_id") fun eid =>
  Message.make (.register t eid)

/-- `Fetch.from_dict`. -/
def Fetch.from_dict (d : List (String × MPVal)) : Except Err Message :=
  if ¬ (d.all fun p => decide (p.1 ∈ ["type", "endpoint_id", "node_type"])) then
    .error .typeError
  else
  Except.bind (getArgInt d "type") fun t =>
  Except.bind (getArgStr d "endpoint_id") fun eid =>
  Except.bind (getArgInt d "node_type") fun nt =>
  Message.make (.fetch t eid nt)

/-- Parse a decoded list of bundle maps via `BundleData.from_dict`. -/
def parseBundles : List MPVal → Except Err (List BundleData)
  | [] => .ok []
  | .map d :: rest =>
    Except.bind (BundleData.from_dict d) fun b =>
    Except.bind (parseBundles rest) fun bs =>
    .ok (b :: bs)
  | _ :: _ => .error .typeError

/-- `FetchReply.from_dict`: rebuild the nested bundles with
`BundleData.from_dict`, then `cls(**data)`. -/
def FetchReply.from_dict (d : List (String × MPVal)) : Except Err Message :=
  Except.bind
    (match pyLookup d "bundles" with
     | some (.list l) => parseBundles l
     | some _ => .error .typeError
     | none => .error .keyError) fun bs =>
  if ¬ (d.all fun p => decide (p.1 ∈ ["type", "success", "error", "bundles"])) then
    .error .typeError
  else
  Except.bind (getArgInt d "type") fun t =>
  Except.bind (getArgBool d "success") fun s =>
  Except.bind (getArgStr d "error") fun e =>
  Message.make (.fetchReply t s e bs)

/-- `BundleCreate.from_dict`. -/
def BundleCreate.from_dict (d : List (String × MPVal)) : Except Err Message :=
  Except.bind
    (match pyLookup d "bundle" with
     | some (.map bd) => BundleData.from_dict bd
     | some _ => .error .typeError
     | none => .error .keyError) fun b =>
  if ¬ (d.all fun p => decide (p.1 ∈ ["type", "bundle"])) then
    .error .typeError
  else
  Except.bind (getArgInt d "type") fun t =>
  Message.make (.bundleCreate t b)

/-- The `MESSAGE_CONSTRUCTORS` dispatch table, keyed by the numeric tag
(only called for tags in the declared enumeration). -/
def MESSAGE_CONSTRUCTORS (t : Int) (d : List (String × MPVal)) : Except Err Message :=
  if t = MessageType.REPLY then Reply.from_dict d
  else if t = MessageType.REGISTER then Register.from_dict d
  else if t = MessageType.FETCH then Fetch.from_dict d
  else if t = MessageType.FETCH_REPLY then FetchReply.from_dict d
  else BundleCreate.from_dict d

mutual
/-- Can msgpack encode this value?  All shapes encode except integers
outside the 64-bit wire range (`packb` raises an overflow error there;
the source records the upper bound as `MSGPACK_MAXINT = 2^64 - 1`). -/
def MPVal.packable : MPVal → Bool
  | .nil => true
  | .int i => decide (-(2 ^ 63) ≤ i) && decide (i ≤ 18446744073709551615)
  | .str _ => true
  | .bool _ => true
  | .bytes _ => true
  | .list l => packableList l
  | .map m => packableMap m

/-- `MPVal.packable` over the elements of a list. -/
def packableList : List MPVal → Bool
  | [] => true
  | v :: rest => MPVal.packable v && packableList rest

/-- `MPVal.packable` over the values of a map. -/
def packableMap : List (String × MPVal) → Bool
  | [] => true
  | (_, v) :: rest => MPVal.packable v && packableMap rest
end

/-- `msgpack.packb`: encode a value (abstractly, the encoding is the value
itself), failing on out-of-range integers. -/
def packb (v : MPVal) : Except Err Bytes :=
  if v.packable then .ok (.packed v) else .error .overflowError

/-- `msgpack.unpackb`: decode `packb` output back to its value.  Raw bytes
are opaque payload data, never a `packb` result, and do not decode. -/
def unpackb : Bytes → Except Err MPVal
  | .packed v => .ok v
  | .raw _ => .error .typeError

/-- `serialize(message)`: `packb(message.dictify())`. -/
def serialize (m : Message) : Except Err Bytes :=
  packb m.dictify

/-- The body of `deserialize` on a decoded map: look up the `type` tag,
fail with an unknown-message error when it is not a key of
`MESSAGE_CONSTRUCTORS` (Python `bool` tags compare equal to the ints 0/1),
and dispatch.  Unhashable tags (lists, maps) raise `TypeError`. -/
def deserializeMap (d : List (String × MPVal)) : Except Err Message :=
  match pyLookup d "type" with
  | none => .error .keyError
  | some (.int t) =>
    if 1 ≤ t ∧ t ≤ 5 then MESSAGE_CONSTRUCTORS t d
    else .error (.invalidMessage "Message type unknown")
  | some (.bool bb) =>
    if bb then MESSAGE_CONSTRUCTORS 1 d
    else .error (.invalidMessage "Message type unknown")
  | some (.list _) => .error .typeError
  | some (.map _) => .error .typeError
  | some _ => .error (.invalidMessage "Message type unknown")

/-- `deserialize` after decoding: indexing `data_dict["type"]` on a non-map
decode raises `TypeError`; on a map, dispatch by tag. -/
def deserializeVal : MPVal → Except Err Message
  | .map d => deserializeMap d
  | _ => .error .typeError

/-- `deserialize(serialized)`: `unpackb` then dispatch on the decoded map. -/
def deserialize (b : Bytes) : Except Err Message :=
  Except.bind (unpackb b) deserializeVal

/-- Modelled from the spec: `rec/dtn/job.py` is not in the sources.  The
resource-capability vector of §3 (four non-negative quantities). -/
structure Capabilities : Type where
  cpu_cores : Nat
  free_cpu_capacity : Nat
  free_memory : Nat
  free_disk_space : Nat

/-- Modelled from the spec: the job description record of §3. -/
structure JobInfo : Type where
  job_id : String
  submitter : EID
  wasm_module : String
  capabilities : Capabilities
  argv : List String
  env : List (String × String)
  stdin_file : Option String
  dirs : List String
  data : List (String × String)
  stdout_file : String
  stderr_file : String
  results : List String
  named_results : List (String × String)
  results_receiver : Option EID

/-- Modelled from the spec: a `Capabilities` value as a msgpack map. -/
def Capabilities.dictify (c : Capabilities) : MPVal :=
  .map [("cpu_cores", .int c.cpu_cores),
        ("free_cpu_capacity", .int c.free_cpu_capacity),
        ("free_memory", .int c.free_memory),
        ("free_disk_space", .int c.free_disk_space)]

/-- Modelled from the spec: a `JobInfo` as a msgpack map of its fields. -/
def JobInfo.dictify (j : JobInfo) : MPVal :=
  .map [("job_id", .str j.job_id),
        ("submitter", .str j.submitter),
        ("wasm_module", .str j.wasm_module),
        ("capabilities", j.capabilities.dictify),
        ("argv", .list (j.argv.map MPVal.str)),
        ("env", .map (j.env.map fun p => (p.1, MPVal.str p.2))),
        ("stdin_file", optEIDVal j.stdin_file),
        ("dirs", .list (j.dirs.map MPVal.str)),
        ("data", .map (j.data.map fun p => (p.1, MPVal.str p.2))),
        ("stdout_file", .str j.stdout_file),
        ("stderr_file", .str j.stderr_file),
        ("results", .list (j.results.map MPVal.str)),
        ("named_results", .map (j.named_results.map fun p => (p.1, MPVal.str p.2))),
        ("results_receiver", optEIDVal j.results_receiver)]

/-- Modelled from the spec: `dictify_job_infos` maps job descriptions to a
list of their serializable dictionaries. -/
def dictify_job_infos (jobs : List JobInfo) : MPVal :=
  .list (jobs.map JobInfo.dictify)

/-- Lookup in the broker's `discovered_nodes` dictionary (int role keys). -/
def dictLookup : List (Int × List EID) → Int → Option (List EID)
  | [], _ => none
  | p :: rest, k => if p.1 = k then some p.2 else dictLookup rest k

/-- In-place replacement of an existing key's set in `discovered_nodes`
(mirrors mutating the looked-up set object). -/
def dictSet : List (Int × List EID) → Int → List EID → List (Int × List EID)
  | [], _, _ => []
  | p :: rest, k, v => if p.1 = k then (k, v) :: rest else p :: dictSet rest k v

/-- Python `set.add`: insert the element if it is not already present. -/
def setAdd (l : List EID) (e : EID) : List EID :=
  if e ∈ l then l else l ++ [e]

/-- The broker's state: identity and role (from `Node.__init__`, the role is
always `NodeType.BROKER`), the job collections and the discovered-peer map. -/
structure Broker : Type where
  node_id : EID
  node_type : Int
  completed_jobs : List JobInfo
  queued_jobs : List JobInfo
  discovered_nodes : List (Int × List EID)

namespace Broker

/-- `Broker.__init__`: empty job collections and a discovered-nodes map
holding exactly the four role keys, in source insertion order
(BROKER, CLIENT, EXECUTOR, DATASTORE). -/
def init (node_id : EID) : Broker :=
  { node_id := node_id, node_type := NodeType.BROKER,
    completed_jobs := [], queued_jobs := [],
    discovered_nodes :=
      [(NodeType.BROKER, []), (NodeType.CLIENT, []),
       (NodeType.EXECUTOR, []), (NodeType.DATASTORE, [])] }

/-- `Broker._handle_job_query`: pack the currently held job descriptions as
`{completed, queued}` and answer with one `JOB_LIST` bundle addressed to the
querying bundle's `source`, the query's `submitter` copied over.  Shared
state is only read. -/
def handleJobQuery (s : Broker) (b : BundleData) :
    Except Err (Broker × Option BundleData) :=
  let jobs : MPVal :=
    .map [("completed", dictify_job_infos s.completed_jobs),
          ("queued", dictify_job_infos s.queued_jobs)]
  Except.bind (packb jobs) fun jobs_bytes =>
  Except.bind
    (BundleData.make
      { type := BundleType.JOB_LIST, source := s.node_id,
        destination := b.source, submitter := b.submitter,
        payload := jobs_bytes }) fun bundle_response =>
  .ok (s, some bundle_response)

/-- `Broker._handle_discovery`: a `BROKER_ANNOUNCE` from another broker is
recorded under the BROKER role and never answered; a `BROKER_REQUEST` records
the requester under its declared role and is answered with one `BROKER_ACK`
carrying the broker's own role; any other discovery tag is dropped with a
warning.  A missing role key in `discovered_nodes` would be a `KeyError`. -/
def handleDiscovery (s : Broker) (b : BundleData) :
    Except Err (Broker × Option BundleData) :=
  if b.type = BundleType.BROKER_ANNOUNCE then
    if b.source ≠ s.node_id then
      match dictLookup s.discovered_nodes NodeType.BROKER with
      | none => .error .keyError
      | some l =>
        .ok ({ s with discovered_nodes :=
                 dictSet s.discovered_nodes NodeType.BROKER (setAdd l b.source) },
             none)
    else .ok (s, none)
  else if b.type = BundleType.BROKER_REQUEST then
    match dictLookup s.discovered_nodes b.node_type with
    | none => .error .keyError
    | some l =>
      Except.bind
        (BundleData.make
          { type := BundleType.BROKER_ACK, source := s.node_id,
            destination := b.source, node_type := s.node_type }) fun ack =>
      .ok ({ s with discovered_nodes :=
               dictSet s.discovered_nodes b.node_type (setAdd l b.source) },
           some ack)
  else .ok (s, none)

/-- `Broker._handle_bundle`: dispatch on the bundle type; job queries and
discovery bundles are handled, everything else is dropped with a warning. -/
def handleBundle (s : Broker) (b : BundleData) :
    Except Err (Broker × Option BundleData) :=
  if b.type = BundleType.JOB_QUERY then
    handleJobQuery s b
  else if BundleType.BROKER_ANNOUNCE ≤ b.type ∧ b.type ≤ BundleType.BROKER_ACK then
    handleDiscovery s b
  else .ok (s, none)

/-- The bundle loop of one intake cycle, with the replies accumulated so
far.  An exception anywhere inside the cycle's `try` block lands in the
cycle-level `except`: state changes made before the failure persist, the
remaining bundles are not handled, and no replies are submitted. -/
def cycleGo (s : Broker) (bundles : List BundleData) (acc : List BundleData) :
    Broker × List BundleData :=
  match bundles with
  | [] => (s, acc)
  | b :: rest =>
    match handleBundle s b with
    | .ok (s', some r) => cycleGo s' rest (acc ++ [r])
    | .ok (s', none) => cycleGo s' rest acc
    | .error _ => (s, [])

/-- One iteration of `Broker._handle_bundles` over a fetched batch: the
resulting broker state and the batch of replies submitted back to the
transport daemon. -/
def handleBundlesCycle (s : Broker) (bundles : List BundleData) :
    Broker × List BundleData :=
  cycleGo s bundles []

end Broker

/-- The effect of Python truthiness filtering on a single optional value. -/
def optTruthy : Option MPVal → Option MPVal
  | some v => if v.truthy then some v else none
  | none => none

/-- A bundle is wire-safe when every falsy field of it equals the field's
declared default: a nonzero type tag and no falsy-but-non-`None` `submitter`
or `named_data`.  (`dictify` omits falsy fields, so only such bundles can
survive a serialization round trip unchanged.) -/
def BundleData.wireSafe (b : BundleData) : Bool :=
  decide (b.type ≠ 0) &&
  (match b.submitter with
   | none => true
   | some e => decide (e ≠ "")) &&
  (match b.named_data with
   | none => true
   | some (.str s) => decide (s ≠ "")
   | some (.list l) => decide (l ≠ []))

/-- A message is wire-safe when every `BundleData` nested in it is
wire-safe (plain variants carry no bundle and always are). -/
def Message.wireSafe : Message → Bool
  | .fetchReply _ _ _ bs => bs.all BundleData.wireSafe
  | .bundleCreate _ b => b.wireSafe
  | _ => true

/-- A plain valid job-submit bundle (all defaults) used in witnesses. -/
def wbOk : BundleData :=
  { type := BundleType.JOB_SUBMIT, source := "dtn://a/", destination := "dtn://b/" }

/-- A bundle violating the success/error exclusivity (success with error text). -/
def wbBad : BundleData :=
  { type := BundleType.JOB_SUBMIT, source := "dtn://a/", destination := "dtn://b/",
    error := "boom" }

/-- A constructible discovery bundle whose `named_data` is falsy (`""`) but
not `None` -- the shape that breaks the serialization round trip. -/
def cexBundle : BundleData :=
  { type := BundleType.BROKER_ANNOUNCE, source := "dtn://a/",
    destination := "dtn://b/", node_type := NodeType.BROKER,
    named_data := some (.str "") }

/-- A `BundleCreate` message wrapping `cexBundle`. -/
def cexMessage : Message := .bundleCreate MessageType.CREATE cexBundle

/-- What `cexMessage` becomes after a serialization round trip: the falsy
`named_data` is dropped on the wire and restored as the default `None`. -/
def cexMessageRet : Message :=
  .bundleCreate MessageType.CREATE { cexBundle with named_data := none }

/-- A well-behaved `Register` message used as a round-trip witness. -/
def regMsgW : Message := .register MessageType.REGISTER "dtn://n1/"

/-- Modelled from the spec: a capability vector whose `free_memory` exceeds
msgpack's 64-bit integer limit, so packing it fails. -/
def poisonCaps : Capabilities :=
  { cpu_cores := 1, free_cpu_capacity := 100,
    free_memory := 18446744073709551616, free_disk_space := 0 }

/-- A queued job description that cannot be msgpack-serialized. -/
def poisonJob : JobInfo :=
  { job_id := "job-1", submitter := "dtn://c/", wasm_module := "m.wasm",
    capabilities := poisonCaps, argv := [], env := [], stdin_file := none,
    dirs := [], data := [], stdout_file := "", stderr_file := "",
    results := [], named_results := [], results_receiver := none }

/-- A broker holding `poisonJob` in its queue. -/
def brokerPoisoned : Broker :=
  { Broker.init "dtn://b1/" with queued_jobs := [poisonJob] }

/-- A valid `JOB_QUERY` bundle addressed to the poisoned broker. -/
def jobQueryPoison : BundleData :=
  { type := BundleType.JOB_QUERY, source := "dtn://c/",
    destination := "dtn://b1/", submitter := some "dtn://c/" }

/-- A valid `BROKER_REQUEST` from a datastore node. -/
def brkReq : BundleData :=
  { type := BundleType.BROKER_REQUEST, source := "dtn://x/",
    destination := "dtn://b1/", node_type := NodeType.DATASTORE }

/-- A freshly initialized broker. -/
def brokerB1 : Broker := Broker.init "dtn://b1/"

/-- A valid `JOB_QUERY` whose `source` and `submitter` are different EIDs. -/
def query5 : BundleData :=
  { type := BundleType.JOB_QUERY, source := "dtn://a/",
    destination := "dtn://b1/", submitter := some "dtn://b/" }

/-- The reply `brokerB1` produces for `query5`. -/
def reply5 : BundleData :=
  { type := BundleType.JOB_LIST, source := "dtn://b1/",
    destination := "dtn://a/",
    payload := .packed (.map [("completed", .list []), ("queued", .list [])]),
    submitter := some "dtn://b/" }

/-- A valid `BROKER_ANNOUNCE` from another broker. -/
def announceW : BundleData :=
  { type := BundleType.BROKER_ANNOUNCE, source := "dtn://x/",
    destination := "dtn://b1/", node_type := NodeType.BROKER }

/-- `Except.bind` over a success reduces to the continuation. -/
theorem exBind_ok {α β : Type} (a : α) (f : α → Except Err β) :
    Except.bind (Except.ok a) f = f a := rfl

/-- Looking up the key just written by `pyDictSet` yields the new value. -/
theorem pyLookup_pyDictSet_self (d : List (String × MPVal)) (k : String) (v : MPVal) :
    pyLookup (pyDictSet d k v) k = some v := by
  induction d with
  | nil => simp [pyDictSet, pyLookup]
  | cons p rest ih =>
    by_cases h : p.1 = k
    · simp [pyDictSet, h, pyLookup]
    · simp [pyDictSet, h, pyLookup, ih]

/-- `pyDictSet` leaves every other key's lookup unchanged. -/
theorem pyLookup_pyDictSet_ne (d : List (String × MPVal)) (k k' : String) (v : MPVal)
    (h : k' ≠ k) :
    pyLookup (pyDictSet d k v) k' = pyLookup d k' := by
  have hkk' : ¬ (k = k') := fun hh => h hh.symm
  induction d with
  | nil => simp [pyDictSet, pyLookup, hkk']
  | cons p rest ih =>
    by_cases hp : p.1 = k
    · have h2 : ¬ (p.1 = k') := by rw [hp]; exact hkk'
      simp [pyDictSet, hp, pyLookup, hkk', h2]
    · by_cases hp' : p.1 = k'
      · simp [pyDictSet, hp, pyLookup, hp', h]
      · simp [pyDictSet, hp, pyLookup, hp', ih]

/-- A key outside a dictionary's key list looks up to `none`. -/
theorem pyLookup_none_of_not_mem (l : List (String × MPVal)) (k : String)
    (h : k ∉ l.map Prod.fst) :
    pyLookup l k = none := by
  induction l with
  | nil => rfl
  | cons p rest ih =>
    simp only [List.map_cons, List.mem_cons] at h
    push_neg at h
    have h1 : ¬ (p.1 = k) := fun hh => h.1 hh.symm
    simp [pyLookup, h1, ih h.2]

/-- Looking up a key in a truthiness-filtered dictionary with distinct keys
is the truthiness filter of the unfiltered lookup. -/
theorem pyLookup_filter_truthy (l : List (String × MPVal))
    (hnd : (l.map Prod.fst).Nodup) (k : String) :
    pyLookup (l.filter fun p => p.2.truthy) k = optTruthy (pyLookup l k) := by
  induction l with
  | nil => simp [pyLookup, optTruthy]
  | cons p rest ih =>
    simp only [List.map_cons, List.nodup_cons] at hnd
    by_cases hk : p.1 = k
    · by_cases htr : p.2.truthy
      · simp [List.filter_cons, htr, pyLookup, hk, optTruthy]
      · have hnone : pyLookup (rest.filter fun p => p.2.truthy) k = none := by
          apply pyLookup_none_of_not_mem
          intro hmem
          rcases List.mem_map.mp hmem with ⟨q, hq, hq1⟩
          exact hnd.1 (hk ▸ hq1 ▸ List.mem_map_of_mem Prod.fst (List.mem_of_mem_filter hq))
        simp [List.filter_cons, htr, pyLookup, hk, optTruthy, hnone]
    · by_cases htr : p.2.truthy
      · simp [List.filter_cons, htr, pyLookup, hk, ih hnd.2]
      · simp [List.filter_cons, htr, pyLookup, hk, ih hnd.2]

/-- Every entry of `pyDictSet d k v` is an entry of `d` or the pair `(k, v)`. -/
theorem mem_pyDictSet (d : List (String × MPVal)) (k : String) (v : MPVal)
    (p : String × MPVal) (h : p ∈ pyDictSet d k v) : p ∈ d ∨ p = (k, v) := by
  induction d with
  | nil => simpa [pyDictSet] using h
  | cons q rest ih =>
    by_cases hq : q.1 = k
    · simp only [pyDictSet, hq, if_true, List.mem_cons] at h
      rcases h with h | h
      · right; exact hq ▸ h
      · exact Or.inl (List.mem_cons_of_mem q h)
    · simp only [pyDictSet, hq, if_false, List.mem_cons] at h
      rcases h with h | h
      · exact Or.inl (h ▸ List.mem_cons_self q rest)
      · rcases ih h with h' | h'
        · exact Or.inl (List.mem_cons_of_mem q h')
        · exact Or.inr h'

/-- Wrapping strings and stripping them back is the identity. -/
theorem strList_map_str (l : List String) :
    strList (l.map MPVal.str) = .ok l := by
  induction l with
  | nil => rfl
  | cons s rest ih => simp [strList, ih, Except.map]

/-- The key list of a `BundleData.__dict__` is the list of its field names. -/
theorem pyFields_keys (b : BundleData) :
    (b.pyFields).map Prod.fst = bundleFieldNames := rfl

/-- The construction checks, spelled out: `valid` holds exactly when every
`__post_init__` condition is met. -/
theorem BundleData.valid_iff (b : BundleData) :
    b.valid = true ↔
      (b.source ≠ "" ∧ b.destination ≠ "" ∧
       ¬(b.success = false ∧ b.error = "") ∧
       ¬(b.success = true ∧ b.error ≠ "") ∧
       ((1 ≤ b.type ∧ b.type ≤ 3) → (1 ≤ b.node_type ∧ b.node_type ≤ 4)) ∧
       ((b.type = 13 ∨ b.type = 14) → optEIDTruthy b.submitter = true) ∧
       ((21 ≤ b.type ∧ b.type ≤ 23) → ndTruthy b.named_data = true)) := by
  unfold BundleData.valid BundleData.postInit BundleType.BROKER_ANNOUNCE
    BundleType.BROKER_ACK BundleType.JOB_QUERY BundleType.JOB_LIST
    BundleType.NDATA_PUT BundleType.NDATA_DEL NodeType.BROKER NodeType.CLIENT
  split_ifs with h1 h2 h3 h4 h5 h6 h7
  · exact iff_of_false (by simp [exceptOk]) (fun hc => hc.1 h1)
  · exact iff_of_false (by simp [exceptOk]) (fun hc => hc.2.1 h2)
  · exact iff_of_false (by simp [exceptOk]) (fun hc => hc.2.2.1 h3)
  · exact iff_of_false (by simp [exceptOk]) (fun hc => hc.2.2.2.1 h4)
  · refine iff_of_false (by simp [exceptOk]) (fun hc => ?_)
    obtain ⟨h51, h52⟩ := h5
    have := hc.2.2.2.2.1 h51
    omega
  · refine iff_of_false (by simp [exceptOk]) (fun hc => ?_)
    obtain ⟨h61, h62⟩ := h6
    have := hc.2.2.2.2.2.1 h61
    rw [this] at h62
    exact absurd h62 (by simp)
  · refine iff_of_false (by simp [exceptOk]) (fun hc => ?_)
    obtain ⟨h71, h72⟩ := h7
    have := hc.2.2.2.2.2.2 h71
    rw [this] at h72
    exact absurd h72 (by simp)
  · refine iff_of_true (by simp [exceptOk]) ?_
    refine ⟨h1, h2, h3, h4, fun ht => ?_, fun ht => ?_, fun ht => ?_⟩
    · have hn : ¬(b.node_type < 1 ∨ b.node_type > 4) := fun hn => h5 ⟨ht, hn⟩
      omega
    · cases hopt : optEIDTruthy b.submitter
      · exact absurd ⟨ht, hopt⟩ h6
      · rfl
    · cases hopt : ndTruthy b.named_data
      · exact absurd ⟨ht, hopt⟩ h7
      · rfl

/-- A valid bundle's `__post_init__` raises nothing. -/
theorem BundleData.postInit_eq_ok (b : BundleData) (hv : b.valid = true) :
    b.postInit = .ok () := by
  unfold BundleData.valid at hv
  cases h : b.postInit with
  | ok u => cases u; rfl
  | error e => rw [h] at hv; simp [exceptOk] at hv

/-- Unfolding of `wireSafe` into usable facts. -/
theorem BundleData.wireSafe_spec (b : BundleData) (h : b.wireSafe = true) :
    b.type ≠ 0 ∧
    (b.submitter = none ∨ ∃ e, b.submitter = some e ∧ e ≠ "") ∧
    (b.named_data = none ∨ (∃ s, b.named_data = some (.str s) ∧ s ≠ "") ∨
      ∃ l, b.named_data = some (.list l) ∧ l ≠ []) := by
  unfold BundleData.wireSafe at h
  simp only [Bool.and_eq_true, decide_eq_true_eq] at h
  obtain ⟨⟨ht, hs⟩, hn⟩ := h
  refine ⟨ht, ?_, ?_⟩
  · cases hsub : b.submitter with
    | none => exact Or.inl rfl
    | some e =>
      right
      rw [hsub] at hs
      exact ⟨e, rfl, by simpa using hs⟩
  · cases hnd : b.named_data with
    | none => exact Or.inl rfl
    | some nd =>
      right
      rw [hnd] at hn
      cases nd with
      | str s => exact Or.inl ⟨s, rfl, by simpa using hn⟩
      | list l => exact Or.inr ⟨l, rfl, by simpa using hn⟩

/-- Round trip at the bundle level: `BundleData.from_dict` inverts
`BundleData.dictify` on every constructible, wire-safe bundle. -/
theorem BundleData.from_dict_dictify (b : BundleData)
    (hv : b.valid = true) (hw : b.wireSafe = true) :
    BundleData.from_dict b.dictify = .ok b := by
  obtain ⟨hsrc, hdst, -, -, -, -, -⟩ := (BundleData.valid_iff b).mp hv
  obtain ⟨ht0, hsub, hnd⟩ := BundleData.wireSafe_spec b hw
  have hnodup : ((b.pyFields).map Prod.fst).Nodup := by
    rw [pyFields_keys]
    simp [bundleFieldNames]
  have hmain : ∀ k, k ≠ "success" →
      pyLookup b.dictify k = optTruthy (pyLookup b.pyFields k) := by
    intro k hk
    unfold BundleData.dictify
    rw [pyLookup_pyDictSet_ne _ _ _ _ hk, pyLookup_filter_truthy _ hnodup]
  have hty : getArgInt b.dictify "type" = .ok b.type := by
    unfold getArgInt
    rw [hmain "type" (by decide)]
    simp [BundleData.pyFields, pyLookup, optTruthy, MPVal.truthy, ht0]
  have hsrcL : getReqStr b.dictify "source" = .ok b.source := by
    unfold getReqStr
    rw [hmain "source" (by decide)]
    simp [BundleData.pyFields, pyLookup, optTruthy, MPVal.truthy, hsrc]
  have hdstL : getReqStr b.dictify "destination" = .ok b.destination := by
    unfold getReqStr
    rw [hmain "destination" (by decide)]
    simp [BundleData.pyFields, pyLookup, optTruthy, MPVal.truthy, hdst]
  have hsubL : getOptStr b.dictify "submitter" = .ok b.submitter := by
    unfold getOptStr
    rw [hmain "submitter" (by decide)]
    rcases hsub with h | ⟨e, he, hne⟩
    · simp [BundleData.pyFields, pyLookup, optTruthy, MPVal.truthy, h, optEIDVal]
    · simp [BundleData.pyFields, pyLookup, optTruthy, MPVal.truthy, he, hne, optEIDVal]
  have hndL : getOptND b.dictify = .ok b.named_data := by
    unfold getOptND
    rw [hmain "named_data" (by decide)]
    rcases hnd with h | ⟨s, hs, hsne⟩ | ⟨l, hl, hlne⟩
    · simp [BundleData.pyFields, pyLookup, optTruthy, MPVal.truthy, h, ndVal]
    · simp [BundleData.pyFields, pyLookup, optTruthy, MPVal.truthy, hs, hsne, ndVal]
    · have hmap : (l.map MPVal.str).isEmpty = false := by
        cases l with
        | nil => exact absurd rfl hlne
        | cons x xs => rfl
      simp [BundleData.pyFields, pyLookup, optTruthy, MPVal.truthy, hl, ndVal,
        hmap, strList_map_str, Except.map]
  have hpayL : getOptBytesD b.dictify "payload" (.raw []) = .ok b.payload := by
    unfold getOptBytesD
    rw [hmain "payload" (by decide)]
    cases hb : b.payload with
    | raw l =>
      cases l with
      | nil => simp [BundleData.pyFields, pyLookup, optTruthy, MPVal.truthy, hb]
      | cons x xs => simp [BundleData.pyFields, pyLookup, optTruthy, MPVal.truthy, hb]
    | packed v => simp [BundleData.pyFields, pyLookup, optTruthy, MPVal.truthy, hb]
  have hsucL : getOptBoolD b.dictify "success" true = .ok b.success := by
    unfold getOptBoolD BundleData.dictify
    rw [pyLookup_pyDictSet_self]
  have herrL : getOptStrD b.dictify "error" "" = .ok b.error := by
    unfold getOptStrD
    rw [hmain "error" (by decide)]
    by_cases he : b.error = ""
    · simp [BundleData.pyFields, pyLookup, optTruthy, MPVal.truthy, he]
    · simp [BundleData.pyFields, pyLookup, optTruthy, MPVal.truthy, he]
  have hntL : getOptIntD b.dictify "node_type" 0 = .ok b.node_type := by
    unfold getOptIntD
    rw [hmain "node_type" (by decide)]
    by_cases hn : b.node_type = 0
    · simp [BundleData.pyFields, pyLookup, optTruthy, MPVal.truthy, hn]
    · simp [BundleData.pyFields, pyLookup, optTruthy, MPVal.truthy, hn]
  have hkeys : (b.dictify.all fun p => decide (p.1 ∈ bundleFieldNames)) = true := by
    rw [List.all_eq_true]
    intro p hp
    rw [decide_eq_true_eq]
    rcases mem_pyDictSet _ _ _ _ hp with hmem | heq
    · have h1 : p.1 ∈ (b.pyFields).map Prod.fst :=
        List.mem_map_of_mem Prod.fst (List.mem_of_mem_filter hmem)
      rw [pyFields_keys] at h1
      exact h1
    · rw [heq]
      simp [bundleFieldNames]
  have hpi := BundleData.postInit_eq_ok b hv
  simp [BundleData.from_dict, hsrcL, hdstL, hsubL, hty, hpayL, hsucL, herrL,
    hntL, hndL, hkeys, exBind_ok, BundleData.make, hpi]

/-- Parsing the dictified forms of constructible, wire-safe bundles returns
exactly the original bundles. -/
theorem parseBundles_roundtrip (bs : List BundleData)
    (h : ∀ b ∈ bs, b.valid = true ∧ b.wireSafe = true) :
    parseBundles (bs.map BundleData.dictifyVal) = .ok bs := by
  induction bs with
  | nil => rfl
  | cons b rest ih =>
    have hb := h b (List.mem_cons_self b rest)
    have hrest := ih fun q hq => h q (List.mem_cons_of_mem b hq)
    simp [parseBundles, BundleData.dictifyVal,
      BundleData.from_dict_dictify b hb.1 hb.2, hrest, exBind_ok]

/-- Claim C1 (amended): for every supported Message variant that satisfies
its construction invariants, whose serialization succeeds (all integers in
msgpack's 64-bit range), and whose nested bundles are wire-safe (no
falsy-but-non-default optional field, since `dictify` drops falsy fields and
deserialization restores declared defaults), deserializing the serialized
bytes yields the original message. -/
theorem claim_C1_roundtrip (m : Message) (w : Bytes)
    (hv : m.valid = true) (hw : m.wireSafe = true) (hs : serialize m = .ok w) :
    deserialize w = .ok m := by
  unfold serialize packb at hs
  split at hs
  case isFalse => exact absurd hs (by simp)
  case isTrue =>
    injection hs with hs
    subst hs
    show Except.bind (unpackb (.packed m.dictify)) deserializeVal = .ok m
    unfold unpackb
    rw [exBind_ok]
    cases m with
    | reply t s e =>
      simp only [Message.valid, Message.postInit] at hv
      split_ifs at hv with h1 h2 h3
      · simp [exceptOk] at hv
      · simp [exceptOk] at hv
      · simp [exceptOk] at hv
      · have ht : t = MessageType.REPLY := not_not.mp h1
        subst ht
        simp [Message.dictify, deserializeVal, deserializeMap, pyLookup, MESSAGE_CONSTRUCTORS,
          MessageType.REPLY, MessageType.REGISTER, MessageType.FETCH,
          MessageType.FETCH_REPLY, MessageType.CREATE, Reply.from_dict,
          getArgInt, getArgBool, getArgStr, Message.make, Message.postInit,
          exBind_ok, h2, h3]
    | register t eid =>
      simp only [Message.valid, Message.postInit] at hv
      split_ifs at hv with h1 h2
      · simp [exceptOk] at hv
      · simp [exceptOk] at hv
      · have ht : t = MessageType.REGISTER := not_not.mp h1
        subst ht
        simp [Message.dictify, deserializeVal, deserializeMap, pyLookup, MESSAGE_CONSTRUCTORS,
          MessageType.REPLY, MessageType.REGISTER, MessageType.FETCH,
          MessageType.FETCH_REPLY, MessageType.CREATE, Register.from_dict,
          getArgInt, getArgStr, Message.make, Message.postInit, exBind_ok, h2]
    | fetch t eid nt =>
      simp only [Message.valid, Message.postInit] at hv
      split_ifs at hv with h1 h2
      · simp [exceptOk] at hv
      · simp [exceptOk] at hv
      · have ht : t = MessageType.FETCH := not_not.mp h1
        subst ht
        simp [Message.dictify, deserializeVal, deserializeMap, pyLookup, MESSAGE_CONSTRUCTORS,
          MessageType.REPLY, MessageType.REGISTER, MessageType.FETCH,
          MessageType.FETCH_REPLY, MessageType.CREATE, Fetch.from_dict,
          getArgInt, getArgStr, Message.make, Message.postInit, exBind_ok, h2]
    | fetchReply t s e bs =>
      simp only [Message.valid, Bool.and_eq_true] at hv
      obtain ⟨hpi, hall⟩ := hv
      simp only [Message.postInit] at hpi
      split_ifs at hpi with h1
      · simp [exceptOk] at hpi
      · have ht : t = MessageType.FETCH_REPLY := not_not.mp h1
        subst ht
        simp only [Message.wireSafe] at hw
        have hbs : ∀ b ∈ bs, b.valid = true ∧ b.wireSafe = true := by
          intro b hb
          exact ⟨List.all_eq_true.mp hall b hb, List.all_eq_true.mp hw b hb⟩
        simp [Message.dictify, deserializeVal, deserializeMap, pyLookup, MESSAGE_CONSTRUCTORS,
          MessageType.REPLY, MessageType.REGISTER, MessageType.FETCH,
          MessageType.FETCH_REPLY, MessageType.CREATE, FetchReply.from_dict,
          getArgInt, getArgBool, getArgStr, Message.make, Message.postInit,
          exBind_ok, parseBundles_roundtrip bs hbs]
    | bundleCreate t b =>
      simp only [Message.valid, Bool.and_eq_true] at hv
      obtain ⟨hpi, hbv⟩ := hv
      simp only [Message.postInit] at hpi
      split_ifs at hpi with h1
      · simp [exceptOk] at hpi
      · have ht : t = MessageType.CREATE := not_not.mp h1
        subst ht
        simp only [Message.wireSafe] at hw
        simp [Message.dictify, deserializeVal, deserializeMap, pyLookup, MESSAGE_CONSTRUCTORS,
          MessageType.REPLY, MessageType.REGISTER, MessageType.FETCH,
          MessageType.FETCH_REPLY, MessageType.CREATE, BundleCreate.from_dict,
          BundleData.dictifyVal, getArgInt, Message.make, Message.postInit,
          exBind_ok, BundleData.from_dict_dictify b hbv hw]

/-- An element just added by `set.add` is a member of the set. -/
theorem mem_setAdd_self (l : List EID) (e : EID) : e ∈ setAdd l e := by
  unfold setAdd
  split
  · assumption
  · simp

/-- Claim C1, counterexample: the round trip is not the identity on every
constructible message.  `cexMessage` satisfies all construction invariants,
serializes successfully, but deserializes to a different message: its
bundle's falsy (empty-string) `named_data` is omitted by `dictify` and comes
back as the default `None`. -/
theorem claim_C1_counterexample :
    cexMessage.valid = true ∧
    Except.bind (serialize cexMessage) deserialize = .ok cexMessageRet ∧
    cexMessageRet ≠ cexMessage := by
  refine ⟨rfl, rfl, ?_⟩
  intro h
  simp [cexMessage, cexMessageRet, cexBundle] at h

/-- Claim C1, witness: the amended round-trip theorem applies to a concrete
`Register` message. -/
theorem claim_C1_witness :
    deserialize (Bytes.packed (Message.dictify regMsgW)) = .ok regMsgW :=
  claim_C1_roundtrip regMsgW (Bytes.packed (Message.dictify regMsgW)) rfl rfl rfl

/-- Claim C2: a constructible bundle satisfies `success = true ↔ error = ""`,
and any bundle violating the exclusivity (success with error text, or
failure without error text) is rejected by `__post_init__` with a
malformed-bundle (`InvalidBundleError`) failure. -/
theorem claim_C2_success_error_exclusive (b : BundleData) :
    (b.valid = true → (b.success = true ↔ b.error = "")) ∧
    ((b.success = true ∧ b.error ≠ "") ∨ (b.success = false ∧ b.error = "") →
      ∃ msg, b.postInit = .error (.invalidBundle msg)) := by
  constructor
  · intro hv
    obtain ⟨-, -, h3, h4, -, -, -⟩ := (BundleData.valid_iff b).mp hv
    constructor
    · intro hs
      by_contra he
      exact h4 ⟨hs, he⟩
    · intro he
      cases hsv : b.success
      · exact absurd ⟨hsv, he⟩ h3
      · rfl
  · intro h
    unfold BundleData.postInit
    split_ifs with h1 h2 h3 h4 h5 h6 h7 <;>
      first
        | exact ⟨_, rfl⟩
        | (rcases h with hA | hB
           · exact absurd hA h4
           · exact absurd hB h3)

/-- Claim C2, witness: the exclusivity theorem applied to a valid bundle and
to a bundle built with `success = true` and error text `"boom"`. -/
theorem claim_C2_witness :
    (wbOk.success = true ↔ wbOk.error = "") ∧
    ∃ msg, wbBad.postInit = .error (.invalidBundle msg) :=
  ⟨(claim_C2_success_error_exclusive wbOk).1 rfl,
   (claim_C2_success_error_exclusive wbBad).2 (Or.inl ⟨rfl, by decide⟩)⟩

/-- Claim C3: on a valid `BROKER_REQUEST` the broker (whose role is BROKER
and whose id is a usable EID, as `Broker.__init__` guarantees) records the
requester's source under the declared role key and returns exactly one
`BROKER_ACK` reply with its own EID as source, the requester as destination
and its own role as `node_type`. -/
theorem claim_C3_broker_request (s : Broker) (b : BundleData) (l : List EID)
    (hv : b.valid = true) (ht : b.type = BundleType.BROKER_REQUEST)
    (hl : dictLookup s.discovered_nodes b.node_type = some l)
    (hid : s.node_id ≠ "") (hrole : s.node_type = NodeType.BROKER) :
    Broker.handleDiscovery s b =
      .ok ({ s with discovered_nodes :=
               dictSet s.discovered_nodes b.node_type (setAdd l b.source) },
           some { type := BundleType.BROKER_ACK, source := s.node_id,
                  destination := b.source, node_type := NodeType.BROKER }) ∧
    b.source ∈ setAdd l b.source := by
  have hsrc : b.source ≠ "" := ((BundleData.valid_iff b).mp hv).1
  refine ⟨?_, mem_setAdd_self l b.source⟩
  unfold Broker.handleDiscovery
  rw [ht, hl]
  simp [BundleType.BROKER_ANNOUNCE, BundleType.BROKER_REQUEST,
    BundleType.BROKER_ACK, BundleType.JOB_QUERY, BundleType.JOB_LIST,
    BundleType.NDATA_PUT, BundleType.NDATA_DEL, NodeType.BROKER,
    NodeType.CLIENT, BundleData.make, BundleData.postInit, hid, hsrc, hrole,
    exBind_ok]

/-- Claim C3, witness: a fresh broker handling a concrete datastore
request. -/
theorem claim_C3_witness :
    Broker.handleDiscovery brokerB1 brkReq =
      .ok ({ brokerB1 with discovered_nodes := dictSet brokerB1.discovered_nodes brkReq.node_type (setAdd [] brkReq.source) },
           some { type := BundleType.BROKER_ACK, source := brokerB1.node_id,
                  destination := brkReq.source, node_type := NodeType.BROKER }) ∧
    brkReq.source ∈ setAdd [] brkReq.source :=
  claim_C3_broker_request brokerB1 brkReq [] rfl rfl rfl (by decide) rfl

/-- Claim C6: on a valid `BROKER_ANNOUNCE` the broker records the announcer
in its discovered-broker set when the announcer is not itself, and in every
case produces no reply bundle. -/
theorem claim_C6_broker_announce (s : Broker) (b : BundleData) (l : List EID)
    (hv : b.valid = true) (ht : b.type = BundleType.BROKER_ANNOUNCE)
    (hl : dictLookup s.discovered_nodes NodeType.BROKER = some l) :
    Broker.handleDiscovery s b =
      .ok ((if b.source = s.node_id then s
            else { s with discovered_nodes := dictSet s.discovered_nodes NodeType.BROKER (setAdd l b.source) }),
           none) ∧
    (b.source ≠ s.node_id → b.source ∈ setAdd l b.source) := by
  refine ⟨?_, fun _ => mem_setAdd_self l b.source⟩
  unfold Broker.handleDiscovery
  rw [ht]
  by_cases hsrc : b.source = s.node_id
  · simp [hsrc]
  · simp [hsrc, hl]

/-- Claim C6, witness: a fresh broker handling a concrete announcement from
a different broker. -/
theorem claim_C6_witness :
    Broker.handleDiscovery brokerB1 announceW =
      .ok ((if announceW.source = brokerB1.node_id then brokerB1
            else { brokerB1 with discovered_nodes := dictSet brokerB1.discovered_nodes NodeType.BROKER (setAdd [] announceW.source) }),
           none) ∧
    (announceW.source ≠ brokerB1.node_id →
      announceW.source ∈ setAdd [] announceW.source) :=
  claim_C6_broker_announce brokerB1 announceW [] rfl rfl rfl

/-- Claim C7: deserializing any byte string whose decoded map carries an
integer type tag outside the declared enumeration 1..5 fails with the
unknown-message error and produces no `Message` value. -/
theorem claim_C7_unknown_tag (b : Bytes) (d : List (String × MPVal)) (t : Int)
    (hb : unpackb b = .ok (.map d))
    (hl : pyLookup d "type" = some (.int t)) (ht : ¬(1 ≤ t ∧ t ≤ 5)) :
    deserialize b = .error (.invalidMessage "Message type unknown") := by
  unfold deserialize
  rw [hb, exBind_ok]
  simp only [deserializeVal]
  unfold deserializeMap
  rw [hl]
  simp [ht]

/-- Claim C7, witness: tag 99 is rejected. -/
theorem claim_C7_witness :
    deserialize (Bytes.packed (.map [("type", .int 99)])) =
      .error (.invalidMessage "Message type unknown") :=
  claim_C7_unknown_tag (Bytes.packed (.map [("type", .int 99)]))
    [("type", .int 99)] 99 rfl rfl (by decide)

/-- Claim C8: the dictified form of a valid bundle always carries the
`success` field with its value, and carries any other key exactly when the
corresponding `__dict__` field is truthy (with that field's value);
in particular every falsy field other than `success` is omitted and no
foreign key appears. -/
theorem claim_C8_dictify_truthy_fields (b : BundleData) (hv : b.valid = true) :
    pyLookup b.dictify "success" = some (.bool b.success) ∧
    ∀ k, k ≠ "success" →
      pyLookup b.dictify k = optTruthy (pyLookup b.pyFields k) := by
  refine ⟨?_, ?_⟩
  · unfold BundleData.dictify
    exact pyLookup_pyDictSet_self _ _ _
  · intro k hk
    unfold BundleData.dictify
    rw [pyLookup_pyDictSet_ne _ _ _ _ hk,
      pyLookup_filter_truthy _ (by rw [pyFields_keys]; simp [bundleFieldNames])]

/-- Claim C8, witness: the truthy-fields law applied to a concrete bundle,
instantiated at the always-present `success` key and at the omitted falsy
`payload` key. -/
theorem claim_C8_witness :
    pyLookup wbOk.dictify "success" = some (.bool wbOk.success) ∧
    pyLookup wbOk.dictify "payload" = optTruthy (pyLookup wbOk.pyFields "payload") :=
  ⟨(claim_C8_dictify_truthy_fields wbOk rfl).1,
   (claim_C8_dictify_truthy_fields wbOk rfl).2 "payload" (by decide)⟩

/-- The result state of a bind chain whose success case returns the input
state paired with a reply is that input state. -/
theorem bind_pair_fst {s s' : Broker} {r : Option BundleData}
    (x : Except Err Bytes) (g : Bytes → Except Err BundleData)
    (h : Except.bind x (fun jb => Except.bind (g jb) fun resp =>
      (Except.ok (s, some resp) : Except Err (Broker × Option BundleData))) =
        .ok (s', r)) :
    s' = s := by
  cases x with
  | error e => simp [Except.bind] at h
  | ok jb =>
    rw [exBind_ok] at h
    cases hg : g jb with
    | error e =>
      rw [hg] at h
      simp [Except.bind] at h
    | ok resp =>
      rw [hg] at h
      rw [exBind_ok] at h
      injection h with h2
      exact (congrArg Prod.fst h2).symm

/-- Claim C9: handling a `JOB_QUERY` is read-only against broker shared
state -- whatever broker state and reply the handler returns, the state is
exactly the input state (job collections and discovered-node sets
included). -/
theorem claim_C9_job_query_readonly (s : Broker) (b : BundleData)
    (s' : Broker) (r : Option BundleData)
    (hv : b.valid = true) (ht : b.type = BundleType.JOB_QUERY)
    (h : Broker.handleJobQuery s b = .ok (s', r)) : s' = s := by
  unfold Broker.handleJobQuery at h
  exact bind_pair_fst _ _ h

/-- Claim C9, witness: the fresh broker's state after answering `query5` is
unchanged. -/
theorem claim_C9_witness : brokerB1 = brokerB1 :=
  claim_C9_job_query_readonly brokerB1 query5 brokerB1 (some reply5) rfl rfl rfl

/-- Claim C10: every constructible bundle of a broker-discovery type has a
`node_type` among the four declared role values; `Broker.__init__` seeds
`discovered_nodes` with exactly those four keys; hence the lookup
`discovered_nodes[bundle.node_type]` performed while handling a
`BROKER_REQUEST` on a fresh broker always finds a key. -/
theorem claim_C10_discovery_node_type_safe :
    (∀ b : BundleData, b.valid = true →
        (1 ≤ b.type ∧ b.type ≤ 3) → (1 ≤ b.node_type ∧ b.node_type ≤ 4)) ∧
    (∀ id : EID,
        (dictLookup (Broker.init id).discovered_nodes NodeType.BROKER).isSome = true ∧
        (dictLookup (Broker.init id).discovered_nodes NodeType.EXECUTOR).isSome = true ∧
        (dictLookup (Broker.init id).discovered_nodes NodeType.DATASTORE).isSome = true ∧
        (dictLookup (Broker.init id).discovered_nodes NodeType.CLIENT).isSome = true) ∧
    (∀ (id : EID) (b : BundleData), b.valid = true →
        b.type = BundleType.BROKER_REQUEST →
        (dictLookup (Broker.init id).discovered_nodes b.node_type).isSome = true) := by
  refine ⟨?_, ?_, ?_⟩
  · intro b hv ht
    exact ((BundleData.valid_iff b).mp hv).2.2.2.2.1 ht
  · intro id
    exact ⟨rfl, rfl, rfl, rfl⟩
  · intro id b hv ht
    have hr := ((BundleData.valid_iff b).mp hv).2.2.2.2.1
      (by rw [ht]; exact ⟨by decide, by decide⟩)
    obtain ⟨h1, h2⟩ := hr
    have hcase : b.node_type = 1 ∨ b.node_type = 2 ∨ b.node_type = 3 ∨
        b.node_type = 4 := by omega
    unfold Broker.init NodeType.BROKER NodeType.CLIENT NodeType.EXECUTOR
      NodeType.DATASTORE
    rcases hcase with h | h | h | h <;> simp [h, dictLookup]

/-- Claim C10, witness: the safety facts instantiated at the concrete
datastore request `brkReq` and a fresh broker. -/
theorem claim_C10_witness :
    (1 ≤ brkReq.node_type ∧ brkReq.node_type ≤ 4) ∧
    (dictLookup (Broker.init "dtn://b1/").discovered_nodes brkReq.node_type).isSome
      = true :=
  ⟨claim_C10_discovery_node_type_safe.1 brkReq rfl (by decide),
   claim_C10_discovery_node_type_safe.2.2 "dtn://b1/" brkReq rfl rfl⟩

/-- Claim C4, counterexample: per-bundle errors are not isolated.  With a
poisoned job queue the `JOB_QUERY` fails while being handled, and the whole
cycle aborts: the following valid `BROKER_REQUEST` in the same batch is not
handled (no state change) and no replies are submitted -- whereas on its own
that request would have produced one reply. -/
theorem claim_C4_counterexample :
    Broker.handleBundlesCycle brokerPoisoned [jobQueryPoison, brkReq] =
      (brokerPoisoned, []) ∧
    (Broker.handleBundlesCycle brokerPoisoned [brkReq]).2.length = 1 :=
  ⟨rfl, rfl⟩

/-- Claim C4 (amended): an error raised while handling a bundle is caught at
the level of the whole intake cycle, not per bundle: the cycle stops at the
failing bundle, the remaining bundles of the batch are not handled, and no
replies are submitted for that cycle (state changes made before the failure
persist, and the intake loop itself survives to its next iteration). -/
theorem claim_C4_cycle_error_aborts (s : Broker) (b : BundleData)
    (rest : List BundleData) (e : Err)
    (h : Broker.handleBundle s b = .error e) :
    Broker.handleBundlesCycle s (b :: rest) = (s, []) := by
  unfold Broker.handleBundlesCycle Broker.cycleGo
  rw [h]

/-- Claim C4, witness: the cycle-abort theorem applied to the poisoned
batch. -/
theorem claim_C4_witness :
    Broker.handleBundlesCycle brokerPoisoned (jobQueryPoison :: [brkReq]) =
      (brokerPoisoned, []) :=
  claim_C4_cycle_error_aborts brokerPoisoned jobQueryPoison [brkReq]
    .overflowError rfl

/-- Claim C5, counterexample: the `JOB_LIST` reply is not addressed to the
querying submitter: for a valid query whose `source` and `submitter` differ,
the reply's destination is the query's `source`, not its `submitter`. -/
theorem claim_C5_counterexample :
    Broker.handleJobQuery brokerB1 query5 = .ok (brokerB1, some reply5) ∧
    query5.submitter = some "dtn://b/" ∧
    reply5.destination = "dtn://a/" ∧
    reply5.destination ≠ "dtn://b/" :=
  ⟨rfl, rfl, rfl, by decide⟩

/-- Claim C5 (amended): on a valid `JOB_QUERY`, a broker with a usable EID
whose held jobs serialize successfully returns exactly one `JOB_LIST` bundle
whose payload is the packed `completed`/`queued` map of its job
descriptions, whose destination is the query's `source` (the querier), and
which copies the query's `submitter` field. -/
theorem claim_C5_job_query_reply (s : Broker) (b : BundleData) (pb : Bytes)
    (hv : b.valid = true) (ht : b.type = BundleType.JOB_QUERY)
    (hid : s.node_id ≠ "")
    (hpk : packb (MPVal.map [("completed", dictify_job_infos s.completed_jobs),
        ("queued", dictify_job_infos s.queued_jobs)]) = .ok pb) :
    Broker.handleJobQuery s b =
      .ok (s, some { type := BundleType.JOB_LIST, source := s.node_id,
                     destination := b.source, payload := pb,
                     submitter := b.submitter }) := by
  have hfacts := (BundleData.valid_iff b).mp hv
  have hsrc : b.source ≠ "" := hfacts.1
  have hsub : optEIDTruthy b.submitter = true :=
    hfacts.2.2.2.2.2.1 (Or.inl (by rw [ht]; rfl))
  simp only [Broker.handleJobQuery]
  rw [hpk, exBind_ok]
  simp [BundleData.make, BundleData.postInit, hid, hsrc, hsub,
    BundleType.BROKER_ANNOUNCE, BundleType.BROKER_ACK, BundleType.JOB_QUERY,
    BundleType.JOB_LIST, BundleType.NDATA_PUT, BundleType.NDATA_DEL,
    exBind_ok]

/-- Claim C5, witness: the amended reply law applied to the fresh broker and
the concrete query. -/
theorem claim_C5_witness :
    Broker.handleJobQuery brokerB1 query5 =
      .ok (brokerB1,
           some { type := BundleType.JOB_LIST, source := brokerB1.node_id,
                  destination := query5.source,
                  payload := Bytes.packed
                    (.map [("completed", .list []), ("queued", .list [])]),
                  submitter := query5.submitter }) :=
  claim_C5_job_query_reply brokerB1 query5
    (Bytes.packed (.map [("completed", .list []), ("queued", .list [])]))
    rfl rfl (by decide) rfl
